import Mathlib

/-!
Verification of the ClickConnect attendance backend (Django) against its
natural-language specification.

The repository's request-serving logic lives in `attendence/serializers.py`
(a legacy revision, called V1 below), `attendence/serializers_v3.py` (the
revision whose class set matches the imports in `attendence/views.py`,
called V3 below), `attendence/views.py` and `attendence/models.py`.

The shallow embedding below models:
  * the per-(email, purpose) OTP store and the `VerifyOtpSerializer.validate`
    logic (identical in V1 and V3);
  * the V1 and V3 `RegisterSerializer.create` / `ResendOtpSerializer.validate`
    issuance and throttling logic, together with a transaction/e-mail trace
    semantics distinguishing `send_mail` inside an atomic block (V1) from
    `transaction.on_commit` (V3);
  * the `AttendanceMarkSerializer` validate/create state machine (V3);
  * `haversine_m` over the reals;
  * the reporting helpers `_minutes_late` and the per-user loop body of
    `_build_attendance_rows` from `views.py`;
  * the login gate of `CustomTokenObtainPairSerializer.validate`.

Timestamps are modelled as integers counting seconds (DateTime columns),
calendar dates as integers counting days, latitude/longitude as real numbers.
-/

namespace ClickConnect

/-- Configuration values `OTP_RESEND_COOLDOWN_SECONDS`, `OTP_MAX_SEND_PER_HOUR`
and `OTP_EXPIRY_MINUTES` from `config/setting_v1.py` (defaults 60, 5, 10). -/
structure OtpConfig where
  cooldownSeconds : Int
  maxPerHour : Nat
  expiryMinutes : Int
deriving Repr, DecidableEq

/-- The default OTP configuration of `config/setting_v1.py`. -/
def defaultOtpConfig : OtpConfig := ⟨60, 5, 10⟩

/-- The `User` row for one e-mail address (model `attendence.models.User`),
projected to the fields the verified claims mention.  The e-mail key itself is
implicit: an `AuthState` below is the slice of the database belonging to one
(case-normalised) e-mail address. -/
structure UserRec where
  fullName : String
  password : String
  isVerified : Bool
  isActive : Bool
deriving Repr, DecidableEq

/-- One `EmailOTP` row for the fixed (email, REGISTER_VERIFY) pair
(model `attendence.models.EmailOTP`).  `created_at` and `last_sent_at` are
`auto_now_add` columns, hence always populated; both are stored here as plain
integers. -/
structure OtpRec where
  id : Nat
  otpHash : String
  salt : String
  expiresAt : Int
  isUsed : Bool
  createdAt : Int
  lastSentAt : Int
deriving Repr, DecidableEq

/-- `_hash_otp(otp, salt) = sha256(f"{otp}:{salt}")` from both serializers
files.  The SHA-256 digest is modelled as the keyed pre-image itself: every
claim below depends only on equality of the hashed pre-images, never on
digest collisions. -/
def hashOtp (otp salt : String) : String := otp ++ ":" ++ salt

/-- `_safe_last_sent_at` from `serializers_v3.py`: `last_sent_at` when set,
otherwise `created_at`.  In the embedded model the `last_sent_at` column is
always populated (it is `auto_now_add` in `models.py`), so the helper returns
it directly; the `created_at` fallback is unreachable. -/
def safeLastSentAt (o : OtpRec) : Int := o.lastSentAt

/-- The database slice for one e-mail address: its `User` row (if any) and its
`EmailOTP` rows for purpose REGISTER_VERIFY. -/
structure AuthState where
  user : Option UserRec
  otps : List OtpRec
deriving Repr, DecidableEq

/-- `order_by("-created_at").first()` over a list of OTP rows: the row with
the greatest `created_at` (first-listed row wins ties). -/
def latestOtp (otps : List OtpRec) : Option OtpRec :=
  otps.foldl
    (fun acc o =>
      match acc with
      | none => some o
      | some b => if o.createdAt > b.createdAt then some o else some b)
    none

/-- `filter(..., is_used=False).order_by("-created_at").first()`: the newest
unused OTP row. -/
def latestUnusedOtp (otps : List OtpRec) : Option OtpRec :=
  latestOtp (otps.filter (fun o => !o.isUsed))

/-- Failure modes of `VerifyOtpSerializer.validate` (raised as
`ValidationError`s in both serializer files). -/
inductive VerifyError where
  | userNotFound
  | otpNotFound
  | otpExpired
  | otpInvalid
deriving Repr, DecidableEq

/-- `VerifyOtpSerializer.validate` (identical logic in `serializers.py`
lines 117-153 and `serializers_v3.py` lines 202-236): look the user up; an
already-verified user short-circuits to success; otherwise take the newest
unused OTP, check expiry and the salted hash, then mark the user verified and
active and mark the OTP row used.  (The `.strip()` whitespace normalisation of
the submitted code is omitted: inputs are modelled post-normalisation.) -/
def verifyOtpValidate (now : Int) (s : AuthState) (code : String) :
    Except VerifyError AuthState :=
  match s.user with
  | none => .error .userNotFound
  | some u =>
    if u.isVerified then .ok s
    else
      match latestUnusedOtp s.otps with
      | none => .error .otpNotFound
      | some o =>
        if now > o.expiresAt then .error .otpExpired
        else if hashOtp code o.salt ≠ o.otpHash then .error .otpInvalid
        else
          .ok { user := some { u with isVerified := true, isActive := true }
                otps := s.otps.map
                  (fun r => if r.id = o.id then { r with isUsed := true } else r) }

/-- Failure modes of the OTP-issuing flows (`RegisterSerializer.create` and
`ResendOtpSerializer.validate`, both files). -/
inductive IssueError where
  | alreadyVerified
  | userNotFound
  | cooldownWait (seconds : Int)
  | hourlyLimitReached
deriving Repr, DecidableEq

/-- Successful issuance: the updated database slice plus the plaintext code
handed to the e-mail sender (never persisted). -/
structure IssueSuccess where
  state : AuthState
  otpCode : String
deriving Repr, DecidableEq

/-- `EmailOTP.objects.filter(created_at__gte=now - 1h).count()`: how many OTP
rows for this (email, purpose) were created within the trailing 60 minutes. -/
def hourlyCount (now : Int) (otps : List OtpRec) : Nat :=
  (otps.filter (fun o => o.createdAt ≥ now - 3600)).length

/-- The new `EmailOTP` row created by an issuance: salted hash, expiry
`now + expiry_minutes`, `is_used=False`; `created_at`/`last_sent_at` are both
`now` (V3 additionally re-saves `last_sent_at = now` explicitly). -/
def createOtpRow (cfg : OtpConfig) (now : Int) (code salt : String) (newId : Nat) :
    OtpRec :=
  { id := newId
    otpHash := hashOtp code salt
    salt := salt
    expiresAt := now + cfg.expiryMinutes * 60
    isUsed := false
    createdAt := now
    lastSentAt := now }

/-- The user-account phase shared by both `RegisterSerializer.create`
versions: a verified existing user is rejected; an unverified existing user is
re-registered (name kept unless a new one is given, password reset, both flags
forced to `False`); otherwise a fresh user is created with both flags
`False`.  (The `EmployeeProfile` bookkeeping is omitted: no claim mentions
it.) -/
def registerUserPhase (s : AuthState) (password fullName : String) :
    Except IssueError UserRec :=
  match s.user with
  | some u =>
    if u.isVerified then .error .alreadyVerified
    else
      .ok { u with
            fullName := if fullName ≠ "" then fullName else u.fullName
            password := password
            isActive := false
            isVerified := false }
  | none =>
    .ok { fullName := fullName, password := password
          isActive := false, isVerified := false }

/-- The throttle phase of `RegisterSerializer.create` in `serializers_v3.py`
(lines 136-159): when a previous OTP exists, reject with the *remaining* wait
`max(cooldown - elapsed, 1)` if the cooldown has not elapsed, then reject when
the trailing-hour count has reached `max_per_hour`. -/
def registerThrottleV3 (cfg : OtpConfig) (now : Int) (otps : List OtpRec) :
    Except IssueError Unit :=
  match latestOtp otps with
  | none => .ok ()
  | some last =>
    if now - safeLastSentAt last < cfg.cooldownSeconds then
      .error (.cooldownWait (max (cfg.cooldownSeconds - (now - safeLastSentAt last)) 1))
    else if hourlyCount now otps ≥ cfg.maxPerHour then
      .error .hourlyLimitReached
    else .ok ()

/-- The throttle phase of `RegisterSerializer.create` in the legacy
`serializers.py` (lines 66-80): same cooldown and hourly-cap conditions, but
the cooldown error reports the configured cooldown constant, not the
remaining wait. -/
def registerThrottleV1 (cfg : OtpConfig) (now : Int) (otps : List OtpRec) :
    Except IssueError Unit :=
  match latestOtp otps with
  | none => .ok ()
  | some last =>
    if now - last.lastSentAt < cfg.cooldownSeconds then
      .error (.cooldownWait cfg.cooldownSeconds)
    else if hourlyCount now otps ≥ cfg.maxPerHour then
      .error .hourlyLimitReached
    else .ok ()

/-- `RegisterSerializer.create` of `serializers_v3.py`: user phase, V3
throttle, then creation of the new OTP row.  The random 6-digit code and the
random salt drawn from `secrets` are passed in as inputs. -/
def registerCreateV3 (cfg : OtpConfig) (now : Int) (s : AuthState)
    (password fullName code salt : String) (newId : Nat) :
    Except IssueError IssueSuccess :=
  match registerUserPhase s password fullName with
  | .error e => .error e
  | .ok u =>
    match registerThrottleV3 cfg now s.otps with
    | .error e => .error e
    | .ok _ =>
      .ok { state := { user := some u
                       otps := s.otps ++ [createOtpRow cfg now code salt newId] }
            otpCode := code }

/-- `RegisterSerializer.create` of the legacy `serializers.py`: identical to
V3 except for the V1 throttle message. -/
def registerCreateV1 (cfg : OtpConfig) (now : Int) (s : AuthState)
    (password fullName code salt : String) (newId : Nat) :
    Except IssueError IssueSuccess :=
  match registerUserPhase s password fullName with
  | .error e => .error e
  | .ok u =>
    match registerThrottleV1 cfg now s.otps with
    | .error e => .error e
    | .ok _ =>
      .ok { state := { user := some u
                       otps := s.otps ++ [createOtpRow cfg now code salt newId] }
            otpCode := code }

/-- `ResendOtpSerializer.validate` of `serializers_v3.py` (lines 245-310):
the user must exist and be unverified; the cooldown check (reporting the
remaining wait) applies when a previous OTP exists; the hourly cap is checked
unconditionally; then a fresh OTP row is created. -/
def resendValidateV3 (cfg : OtpConfig) (now : Int) (s : AuthState)
    (code salt : String) (newId : Nat) : Except IssueError IssueSuccess :=
  match s.user with
  | none => .error .userNotFound
  | some u =>
    if u.isVerified then .error .alreadyVerified
    else
      match latestOtp s.otps with
      | some last =>
        if now - safeLastSentAt last < cfg.cooldownSeconds then
          .error (.cooldownWait (max (cfg.cooldownSeconds - (now - safeLastSentAt last)) 1))
        else if hourlyCount now s.otps ≥ cfg.maxPerHour then
          .error .hourlyLimitReached
        else
          .ok { state := { user := some u
                           otps := s.otps ++ [createOtpRow cfg now code salt newId] }
                otpCode := code }
      | none =>
        if hourlyCount now s.otps ≥ cfg.maxPerHour then
          .error .hourlyLimitReached
        else
          .ok { state := { user := some u
                           otps := s.otps ++ [createOtpRow cfg now code salt newId] }
                otpCode := code }

/-- Externally visible transaction events of one issuance request: the
dispatch of the plaintext-code e-mail, the transaction commit, and the
transaction rollback. -/
inductive TxEvent where
  | emailSend (code : String)
  | txCommit
  | txRollback
deriving Repr, DecidableEq

/-- Transaction/e-mail trace of a V3 register call
(`@transaction.atomic` body followed by `transaction.on_commit(send)`).
A `ValidationError` aborts the atomic block: rollback, no hook registered.
On success the hook runs strictly after the commit; if the commit itself
fails (`commitOk = false`) the writes are rolled back and the on-commit hook
never runs, so no e-mail is dispatched. -/
def registerTraceV3 (cfg : OtpConfig) (now : Int) (s : AuthState)
    (password fullName code salt : String) (newId : Nat) (commitOk : Bool) :
    List TxEvent × AuthState :=
  match registerCreateV3 cfg now s password fullName code salt newId with
  | .error _ => ([.txRollback], s)
  | .ok r =>
    if commitOk then ([.txCommit, .emailSend r.otpCode], r.state)
    else ([.txRollback], s)

/-- Transaction/e-mail trace of a legacy V1 register call: `send_mail` is
invoked inside the atomic block, so on the successful path the e-mail is
dispatched *before* the commit — and it has already been dispatched even when
the commit subsequently fails and the writes are rolled back. -/
def registerTraceV1 (cfg : OtpConfig) (now : Int) (s : AuthState)
    (password fullName code salt : String) (newId : Nat) (commitOk : Bool) :
    List TxEvent × AuthState :=
  match registerCreateV1 cfg now s password fullName code salt newId with
  | .error _ => ([.txRollback], s)
  | .ok r =>
    if commitOk then ([.emailSend r.otpCode, .txCommit], r.state)
    else ([.emailSend r.otpCode, .txRollback], s)

/-- Transaction/e-mail trace of a V3 resend call (`transaction.on_commit`,
same discipline as `registerTraceV3`). -/
def resendTraceV3 (cfg : OtpConfig) (now : Int) (s : AuthState)
    (code salt : String) (newId : Nat) (commitOk : Bool) :
    List TxEvent × AuthState :=
  match resendValidateV3 cfg now s code salt newId with
  | .error _ => ([.txRollback], s)
  | .ok r =>
    if commitOk then ([.txCommit, .emailSend r.otpCode], r.state)
    else ([.txRollback], s)

/-- `math.radians`: degrees to radians. -/
noncomputable def radians (x : ℝ) : ℝ := x * (Real.pi / 180)

/-- `math.atan2(y, x)` (two-argument arctangent, C99 semantics restricted to
real numbers, where no negative zero exists). -/
noncomputable def atan2 (y x : ℝ) : ℝ :=
  if 0 < x then Real.arctan (y / x)
  else if x < 0 ∧ 0 ≤ y then Real.arctan (y / x) + Real.pi
  else if x < 0 ∧ y < 0 then Real.arctan (y / x) - Real.pi
  else if x = 0 ∧ 0 < y then Real.pi / 2
  else if x = 0 ∧ y < 0 then -(Real.pi / 2)
  else 0

/-- `haversine_m` from `serializers_v3.py` lines 343-352: great-circle
distance in meters between two (latitude, longitude) pairs given in degrees,
with Earth radius 6 371 000 m.  Python floats are modelled as real
numbers. -/
noncomputable def haversine_m (lat1 lon1 lat2 lon2 : ℝ) : ℝ :=
  let R : ℝ := 6371000
  let phi1 := radians lat1
  let phi2 := radians lat2
  let dphi := radians (lat2 - lat1)
  let dlambda := radians (lon2 - lon1)
  let a := Real.sin (dphi / 2) ^ 2 +
    Real.cos phi1 * Real.cos phi2 * Real.sin (dlambda / 2) ^ 2
  let c := 2 * atan2 (Real.sqrt a) (Real.sqrt (1 - a))
  R * c

/-- An `OfficeLocation` row (`models.py`): coordinates, allowed radius in
meters, active flag. -/
structure Office where
  id : Nat
  latitude : ℝ
  longitude : ℝ
  allowedRadiusM : Nat
  isActive : Bool

/-- An `OfficeQR` row joined with its office
(`select_related("office")`). -/
structure QRRec where
  token : String
  isActive : Bool
  office : Office

/-- `OfficeQR.objects.filter(qr_token=token, is_active=True,
office__is_active=True).first()`. -/
def findActiveQR (db : List QRRec) (token : String) : Option QRRec :=
  db.find? (fun q => q.token == token && q.isActive && q.office.isActive)

/-- Failure modes of `AttendanceMarkSerializer.validate`.  `outOfRange`
carries the reported measured distance `int(dist_m)` (the distance is
non-negative, so Python's truncation coincides with the floor) and the
office's allowed radius. -/
inductive MarkValidateError where
  | notVerified
  | inactiveAccount
  | invalidQR
  | outOfRange (distanceM : Int) (allowedM : Nat)
deriving Repr, DecidableEq

/-- `AttendanceMarkSerializer.validate` (`serializers_v3.py` lines 362-386):
the caller must be verified and active, the QR token must resolve to an
active QR of an active office, and the haversine distance from the submitted
point to the office must not exceed the office's allowed radius.  (The
`.strip()` whitespace normalisation of the submitted token is omitted:
inputs are modelled post-normalisation.) -/
noncomputable def markValidate (user : UserRec) (db : List QRRec)
    (token : String) (lat lng : ℝ) : Except MarkValidateError Office :=
  if user.isVerified = false then .error .notVerified
  else if user.isActive = false then .error .inactiveAccount
  else
    match findActiveQR db token with
    | none => .error .invalidQR
    | some q =>
      let distM := haversine_m lat lng q.office.latitude q.office.longitude
      if distM > (q.office.allowedRadiusM : ℝ) then
        .error (.outOfRange ⌊distM⌋ q.office.allowedRadiusM)
      else .ok q.office

/-- `Attendance.source` choices. -/
inductive AttSource where
  | online
  | offline
deriving Repr, DecidableEq

/-- An `Attendance` row (`models.py`), unique per (user, date); the date and
the owning user are fixed by the enclosing lookup, the office is stored by
id. -/
structure AttRec where
  id : Nat
  officeId : Nat
  checkInTime : Option Int
  checkInLat : Option ℝ
  checkInLng : Option ℝ
  checkInAccuracyM : Option ℝ
  checkOutTime : Option Int
  checkOutLat : Option ℝ
  checkOutLng : Option ℝ
  checkOutAccuracyM : Option ℝ
  source : AttSource

/-- The two `action` choices of `AttendanceMarkSerializer`. -/
inductive MarkAction where
  | checkin
  | checkout
deriving Repr, DecidableEq

/-- The status strings returned by `AttendanceMarkSerializer.create`. -/
inductive MarkStatus where
  | checkedIn
  | alreadyCheckedIn
  | checkedOut
  | alreadyCheckedOut
deriving Repr, DecidableEq

/-- The one failure mode of `AttendanceMarkSerializer.create`. -/
inductive MarkCreateError where
  | mustCheckInFirst
deriving Repr, DecidableEq

/-- `AttendanceMarkSerializer.create` (`serializers_v3.py` lines 388-439),
acting on today's row for the calling user (fetched under
`select_for_update`, hence single-writer): the per-day check-in/check-out
state machine.  `att` is today's row if it exists, `newId` the id a freshly
created row receives.  Returns the status, the reported `attendance_id`, and
the row as it stands after the call. -/
def markCreate (now : Int) (office : Office) (action : MarkAction)
    (lat lng : ℝ) (accuracyM : Option ℝ) (att : Option AttRec) (newId : Nat) :
    Except MarkCreateError (MarkStatus × Nat × AttRec) :=
  match action with
  | .checkin =>
    match att with
    | some a =>
      if a.checkInTime.isSome then .ok (.alreadyCheckedIn, a.id, a)
      else
        .ok (.checkedIn, a.id,
          { a with officeId := office.id
                   checkInTime := some now
                   checkInLat := some lat
                   checkInLng := some lng
                   checkInAccuracyM := accuracyM })
    | none =>
      .ok (.checkedIn, newId,
        { id := newId
          officeId := office.id
          checkInTime := some now
          checkInLat := some lat
          checkInLng := some lng
          checkInAccuracyM := accuracyM
          checkOutTime := none
          checkOutLat := none
          checkOutLng := none
          checkOutAccuracyM := none
          source := .online })
  | .checkout =>
    match att with
    | none => .error .mustCheckInFirst
    | some a =>
      if a.checkInTime.isNone then .error .mustCheckInFirst
      else if a.checkOutTime.isSome then .ok (.alreadyCheckedOut, a.id, a)
      else
        .ok (.checkedOut, a.id,
          { a with checkOutTime := some now
                   checkOutLat := some lat
                   checkOutLng := some lng
                   checkOutAccuracyM := accuracyM })

/-- Failure modes of the login gate: `super().validate` rejects bad
credentials, then `CustomTokenObtainPairSerializer.validate` (`views.py`
lines 131-141) rejects unverified and inactive accounts. -/
inductive LoginError where
  | badCredentials
  | notVerified
  | accountInactive
deriving Repr, DecidableEq

/-- `CustomTokenObtainPairSerializer.validate`: the base serializer's
credential check (modelled by the `credentialsOk` flag) followed by the
verified and active gates. -/
def loginValidate (u : UserRec) (credentialsOk : Bool) :
    Except LoginError Unit :=
  if credentialsOk = false then .error .badCredentials
  else if u.isVerified = false then .error .notVerified
  else if u.isActive = false then .error .accountInactive
  else .ok ()

/-- The request operations of the authentication surface, as dispatched by
`urls.py`/`views.py`.  Random values (`_generate_otp`, `secrets.token_hex`)
and fresh row ids are inputs of the operation. -/
inductive SysOp where
  | register (password fullName code salt : String) (newId : Nat)
  | resendOtp (code salt : String) (newId : Nat)
  | verifyOtp (code : String)
  | login (credentialsOk : Bool)
deriving Repr, DecidableEq

/-- One request against the per-e-mail database slice: the state after the
operation (a rejected request leaves the state unchanged, since every handler
runs in a single transaction). -/
def sysStep (cfg : OtpConfig) (now : Int) (op : SysOp) (s : AuthState) :
    AuthState :=
  match op with
  | .register password fullName code salt newId =>
    match registerCreateV3 cfg now s password fullName code salt newId with
    | .ok r => r.state
    | .error _ => s
  | .resendOtp code salt newId =>
    match resendValidateV3 cfg now s code salt newId with
    | .ok r => r.state
    | .error _ => s
  | .verifyOtp code =>
    match verifyOtpValidate now s code with
    | .ok s' => s'
    | .error _ => s
  | .login _ => s

/-- An account slice whose user exists with both the verified and the active
flag set. -/
def bothFlagsTrue (s : AuthState) : Prop :=
  ∃ u, s.user = some u ∧ u.isVerified = true ∧ u.isActive = true

/-- `OFFICE_START` (10:00) from `views.py`, as seconds of the local day. -/
def officeStartSeconds : Nat := 36000

/-- `_minutes_late` (`views.py` lines 571-578): zero without a check-in or at
or before 10:00, otherwise whole minutes elapsed since 10:00.  The argument
is the local time-of-day of the check-in, in seconds. -/
def minutesLate (checkInLocal : Option Nat) : Nat :=
  match checkInLocal with
  | none => 0
  | some t =>
    if t ≤ officeStartSeconds then 0
    else (t - officeStartSeconds) / 60

/-- `_date_range_list(d1, d2)` (`views.py`): the inclusive day range, dates
modelled as integer day numbers.  The source's `while cur <= d2` loop is
expressed as a range of offsets. -/
def dateRangeList (d1 d2 : Int) : List Int :=
  if d1 > d2 then []
  else (List.range ((d2 - d1).toNat + 1)).map (fun i => d1 + Int.ofNat i)

/-- The reporting view of one attendance row: only the local time-of-day of
its check-in (seconds) feeds the lateness computation. -/
structure ReportAtt where
  checkInLocal : Option Nat
deriving Repr, DecidableEq

/-- One detail row produced by `_build_attendance_rows` for one user,
projected to status and lateness. -/
structure ReportRow where
  date : Int
  present : Bool
  lateMinutes : Nat
deriving Repr, DecidableEq

/-- The per-user aggregate produced by `_build_attendance_rows`. -/
structure UserSummary where
  totalDays : Nat
  presentDays : Nat
  absentDays : Nat
  lateDays : Nat
deriving Repr, DecidableEq

/-- One iteration of the day loop of `_build_attendance_rows` (`views.py`
lines 613-642): an absent day appends an ABSENT row and bumps the absent
counter; a present day appends a PRESENT row carrying `_minutes_late` of the
check-in and bumps the present counter, and the late counter when the
lateness is positive.  The accumulator is (rows, present, absent, late). -/
def reportStep (attMap : Int → Option ReportAtt)
    (acc : List ReportRow × Nat × Nat × Nat) (d : Int) :
    List ReportRow × Nat × Nat × Nat :=
  match attMap d with
  | none => (acc.1 ++ [⟨d, false, 0⟩], acc.2.1, acc.2.2.1 + 1, acc.2.2.2)
  | some a =>
    let lateMin := minutesLate a.checkInLocal
    (acc.1 ++ [⟨d, true, lateMin⟩], acc.2.1 + 1, acc.2.2.1,
      acc.2.2.2 + (if 0 < lateMin then 1 else 0))

/-- The inner per-user loop of `_build_attendance_rows` (`views.py` lines
608-652): walk the day range, classify each day PRESENT or ABSENT from the
attendance map, compute the day's lateness, and accumulate the present,
absent and late counters into the per-user summary. -/
def buildUserRows (days : List Int) (attMap : Int → Option ReportAtt) :
    List ReportRow × UserSummary :=
  let out := days.foldl (reportStep attMap) ([], 0, 0, 0)
  (out.1, ⟨days.length, out.2.1, out.2.2.1, out.2.2.2⟩)

/-! Concrete sample data used to instantiate the theorems below. -/

/-- A registered but not yet verified account. -/
def exUserUnverified : UserRec :=
  { fullName := "Asha", password := "pw12345678"
    isVerified := false, isActive := false }

/-- The same account once verified (both flags set, as `validate` does). -/
def exUserVerified : UserRec :=
  { fullName := "Asha", password := "pw12345678"
    isVerified := true, isActive := true }

/-- An unused, unexpired OTP row whose code is `123456`. -/
def exOtp : OtpRec :=
  { id := 1, otpHash := hashOtp "123456" "a1b2", salt := "a1b2"
    expiresAt := 2000, isUsed := false, createdAt := 100, lastSentAt := 100 }

/-- Unverified account with one live OTP. -/
def exState0 : AuthState := ⟨some exUserUnverified, [exOtp]⟩

/-- The state after `123456` is successfully verified on `exState0`. -/
def exState1 : AuthState := ⟨some exUserVerified, [{ exOtp with isUsed := true }]⟩

/-- An unverified account whose only OTP is already consumed (the flags were
reset, e.g. by a re-registration of the still-unverified account). -/
def exStateUsedUnverified : AuthState :=
  ⟨some exUserUnverified, [{ exOtp with isUsed := true }]⟩

/-- A verified account with no OTP rows. -/
def exStateVerified : AuthState := ⟨some exUserVerified, []⟩

/-- The newest of the five OTP rows below (created at 700 seconds). -/
def exOtpLast : OtpRec :=
  { id := 5, otpHash := hashOtp "555555" "s5", salt := "s5"
    expiresAt := 1300, isUsed := false, createdAt := 700, lastSentAt := 700 }

/-- Five OTP rows issued at 300, 400, ..., 700 seconds. -/
def exOtps5 : List OtpRec :=
  [ { id := 1, otpHash := hashOtp "111111" "s1", salt := "s1"
      expiresAt := 900, isUsed := false, createdAt := 300, lastSentAt := 300 }
  , { id := 2, otpHash := hashOtp "222222" "s2", salt := "s2"
      expiresAt := 1000, isUsed := false, createdAt := 400, lastSentAt := 400 }
  , { id := 3, otpHash := hashOtp "333333" "s3", salt := "s3"
      expiresAt := 1100, isUsed := false, createdAt := 500, lastSentAt := 500 }
  , { id := 4, otpHash := hashOtp "444444" "s4", salt := "s4"
      expiresAt := 1200, isUsed := false, createdAt := 600, lastSentAt := 600 }
  , exOtpLast ]

/-- Fresh e-mail address (no account yet) that already received five OTPs
within the current hour; the newest one is long past the cooldown. -/
def exState5 : AuthState := ⟨none, exOtps5⟩

/-- The demo office of the specification's geofence scenario:
(28.6000, 77.2000), allowed radius 100 m. -/
def demoOffice : Office :=
  { id := 1, latitude := 28.6, longitude := 77.2
    allowedRadiusM := 100, isActive := true }

/-- An active QR token bound to `demoOffice`. -/
def demoQR : QRRec := { token := "T1", isActive := true, office := demoOffice }

/-- The QR registry holding just `demoQR`. -/
def demoDB : List QRRec := [demoQR]

/-- A verified, active caller. -/
def demoUser : UserRec :=
  { fullName := "Asha", password := "pw12345678"
    isVerified := true, isActive := true }

/-- Today's attendance row with a recorded check-in and no check-out. -/
def demoAttCheckedIn : AttRec :=
  { id := 7, officeId := 1
    checkInTime := some 5000, checkInLat := some 28.6005
    checkInLng := some 77.2, checkInAccuracyM := some 10
    checkOutTime := none, checkOutLat := none, checkOutLng := none
    checkOutAccuracyM := none, source := .online }

/-- Today's attendance row with both a check-in and a check-out recorded. -/
def demoAttCheckedOut : AttRec :=
  { demoAttCheckedIn with
    checkOutTime := some 6000, checkOutLat := some 28.6004
    checkOutLng := some 77.2001, checkOutAccuracyM := some 8 }

/-- Today's attendance row created by an offline upsert that recorded only a
check-out and no check-in. -/
def demoAttNoCheckIn : AttRec :=
  { id := 8, officeId := 1
    checkInTime := none, checkInLat := none, checkInLng := none
    checkInAccuracyM := none
    checkOutTime := some 6000, checkOutLat := none, checkOutLng := none
    checkOutAccuracyM := none, source := .offline }

/-! Helper lemmas about the OTP lookup. -/

/-- Whatever `latestOtp` selects is one of the given rows. -/
theorem latestOtp_mem (l : List OtpRec) (o : OtpRec)
    (h : latestOtp l = some o) : o ∈ l := by
  have aux : ∀ (l : List OtpRec) (acc : Option OtpRec),
      l.foldl
        (fun acc o =>
          match acc with
          | none => some o
          | some b => if o.createdAt > b.createdAt then some o else some b)
        acc = some o →
      o ∈ l ∨ acc = some o := by
    intro l
    induction l with
    | nil =>
      intro acc h
      right
      simpa using h
    | cons x xs ih =>
      intro acc h
      rw [List.foldl_cons] at h
      rcases ih _ h with hmem | hacc
      · exact Or.inl (List.mem_cons_of_mem _ hmem)
      · cases acc with
        | none =>
          left
          have : x = o := by simpa using hacc
          rw [this]
          exact List.mem_cons_self _ _
        | some b =>
          dsimp only at hacc
          by_cases hgt : x.createdAt > b.createdAt
          · left
            rw [if_pos hgt] at hacc
            have : x = o := by simpa using hacc
            rw [this]
            exact List.mem_cons_self _ _
          · right
            rw [if_neg hgt] at hacc
            exact hacc
  rcases aux l none (by simpa [latestOtp] using h) with hm | hf
  · exact hm
  · exact absurd hf (by simp)

/-- The newest-unused lookup only ever returns a row whose used flag is
still false, and that row is one of the stored rows. -/
theorem latestUnusedOtp_unused (l : List OtpRec) (o : OtpRec)
    (h : latestUnusedOtp l = some o) : o.isUsed = false ∧ o ∈ l := by
  unfold latestUnusedOtp at h
  have hm := latestOtp_mem _ _ h
  have hf := List.mem_filter.mp hm
  exact ⟨by simpa using hf.2, hf.1⟩

/-- When every stored row is used, the newest-unused lookup is empty. -/
theorem latestUnusedOtp_eq_none (l : List OtpRec)
    (h : ∀ o ∈ l, o.isUsed = true) : latestUnusedOtp l = none := by
  unfold latestUnusedOtp
  have hfil : l.filter (fun o => !o.isUsed) = [] := by
    rw [List.filter_eq_nil_iff]
    intro a ha
    simp [h a ha]
  rw [hfil]
  rfl

/-- C10: for an account whose verified flag is already true,
`VerifyOtpSerializer.validate` short-circuits with success for every
candidate code — wrong, expired or never issued — without consulting or
consuming any stored OTP and without modifying any state (the returned
state is exactly the input state). -/
theorem C10_already_verified_shortcircuit (now : Int) (s : AuthState)
    (u : UserRec) (code : String) (hu : s.user = some u)
    (hv : u.isVerified = true) :
    verifyOtpValidate now s code = .ok s := by
  unfold verifyOtpValidate
  rw [hu]
  simp [hv]

/-- C10 witness: a verified account accepts the never-issued code 000000. -/
theorem C10_already_verified_shortcircuit_witness :
    verifyOtpValidate 600 exStateVerified "000000" = .ok exStateVerified :=
  C10_already_verified_shortcircuit 600 exStateVerified exUserVerified
    "000000" rfl rfl

/-- C1 counterexample: on the concrete state `exState0` (unverified account,
one live OTP `123456`), Verify succeeds and consumes the code, but the very
next Verify with the same code *succeeds again* (via the already-verified
short-circuit) instead of failing with NOT_FOUND or INVALID, contradicting
the claim that any subsequent Verify call with the same code fails. -/
theorem C1_replay_counterexample :
    verifyOtpValidate 500 exState0 "123456" = .ok exState1 ∧
    verifyOtpValidate 600 exState1 "123456" = .ok exState1 ∧
    verifyOtpValidate 600 exState1 "123456" ≠ .error .otpNotFound ∧
    verifyOtpValidate 600 exState1 "123456" ≠ .error .otpInvalid := by
  have h : verifyOtpValidate 600 exState1 "123456" = .ok exState1 := rfl
  refine ⟨rfl, h, ?_, ?_⟩ <;> rw [h] <;> simp

/-- C1 (amended): a successful consuming Verify marks the matched row used,
and the used flag excludes it from every later unused-code lookup: the
lookup only ever returns rows whose used flag is false, and when the account
is unverified and every stored code is consumed, the replay fails with
NOT_FOUND.  (When the success left the verified flag true, a replay instead
returns success via the already-verified short-circuit without consuming
anything.) -/
theorem C1_used_flag_excludes_replay :
    (∀ (l : List OtpRec) (o : OtpRec),
      latestUnusedOtp l = some o → o.isUsed = false)
  ∧ (∀ (now : Int) (s : AuthState) (u : UserRec) (code : String)
      (s' : AuthState),
      s.user = some u → u.isVerified = false →
      verifyOtpValidate now s code = .ok s' →
      ∃ o, latestUnusedOtp s.otps = some o ∧ o.isUsed = false ∧
        ∀ r ∈ s'.otps, r.id = o.id → r.isUsed = true)
  ∧ (∀ (now : Int) (s : AuthState) (u : UserRec) (code : String),
      s.user = some u → u.isVerified = false →
      (∀ o ∈ s.otps, o.isUsed = true) →
      verifyOtpValidate now s code = .error .otpNotFound) := by
  refine ⟨fun l o h => (latestUnusedOtp_unused l o h).1, ?_, ?_⟩
  · intro now s u code s' hu hv h
    unfold verifyOtpValidate at h
    rw [hu] at h
    simp only [hv, Bool.false_eq_true, if_false] at h
    cases hL : latestUnusedOtp s.otps with
    | none => rw [hL] at h; exact absurd h (by simp)
    | some o =>
      rw [hL] at h
      dsimp only at h
      by_cases hexp : now > o.expiresAt
      · rw [if_pos hexp] at h; exact absurd h (by simp)
      · rw [if_neg hexp] at h
        by_cases hh : hashOtp code o.salt ≠ o.otpHash
        · rw [if_pos hh] at h; exact absurd h (by simp)
        · rw [if_neg hh] at h
          have hs' : s' =
              { user := some { u with isVerified := true, isActive := true }
                otps := s.otps.map
                  (fun r => if r.id = o.id then { r with isUsed := true }
                    else r) } := by
            cases h
            rfl
          refine ⟨o, rfl, (latestUnusedOtp_unused _ _ hL).1, ?_⟩
          intro r hr hid
          rw [hs'] at hr
          rcases List.mem_map.mp hr with ⟨x, _, hfx⟩
          by_cases hxid : x.id = o.id
          · rw [if_pos hxid] at hfx
            rw [← hfx]
          · rw [if_neg hxid] at hfx
            rw [← hfx] at hid
            exact absurd hid hxid
  · intro now s u code hu hv hall
    unfold verifyOtpValidate
    rw [hu]
    simp [hv, latestUnusedOtp_eq_none s.otps hall]

/-- C1 amended witness: the successful verification of `123456` on
`exState0` marks row 1 used, and on the unverified state whose only OTP is
consumed the replay fails with NOT_FOUND. -/
theorem C1_used_flag_excludes_replay_witness :
    (∃ o, latestUnusedOtp exState0.otps = some o ∧ o.isUsed = false ∧
      ∀ r ∈ exState1.otps, r.id = o.id → r.isUsed = true) ∧
    verifyOtpValidate 700 exStateUsedUnverified "123456" =
      .error .otpNotFound :=
  ⟨C1_used_flag_excludes_replay.2.1 500 exState0 exUserUnverified "123456"
      exState1 rfl rfl rfl,
    C1_used_flag_excludes_replay.2.2 700 exStateUsedUnverified
      exUserUnverified "123456" rfl rfl (by decide)⟩

/-- C4: when today's row already has a check-in, a second CHECK_IN mark
returns ALREADY_CHECKED_IN with the existing row id and leaves the row —
check-in time, coordinates, accuracy and office — completely unchanged. -/
theorem C4_second_checkin_idempotent (now : Int) (office : Office)
    (lat lng : ℝ) (accuracyM : Option ℝ) (a : AttRec) (newId : Nat)
    (t : Int) (h : a.checkInTime = some t) :
    markCreate now office .checkin lat lng accuracyM (some a) newId =
      .ok (.alreadyCheckedIn, a.id, a) := by
  simp [markCreate, h]

/-- C4 witness: re-checking-in over `demoAttCheckedIn` is a no-op. -/
theorem C4_second_checkin_idempotent_witness :
    markCreate 9000 demoOffice .checkin 28.6004 77.2001 (some 12)
        (some demoAttCheckedIn) 99 =
      .ok (.alreadyCheckedIn, demoAttCheckedIn.id, demoAttCheckedIn) :=
  C4_second_checkin_idempotent 9000 demoOffice 28.6004 77.2001 (some 12)
    demoAttCheckedIn 99 5000 rfl

/-- C5: CHECK_OUT fails with MUST_CHECK_IN_FIRST when no row or no check-in
exists for the day; returns ALREADY_CHECKED_OUT leaving the row unchanged
when a checkout is already recorded; and otherwise records checkout time,
coordinates and accuracy and returns CHECKED_OUT. -/
theorem C5_checkout_rules :
    (∀ (now : Int) (office : Office) (lat lng : ℝ) (accuracyM : Option ℝ)
      (newId : Nat),
      markCreate now office .checkout lat lng accuracyM none newId =
        .error .mustCheckInFirst)
  ∧ (∀ (now : Int) (office : Office) (lat lng : ℝ) (accuracyM : Option ℝ)
      (a : AttRec) (newId : Nat), a.checkInTime = none →
      markCreate now office .checkout lat lng accuracyM (some a) newId =
        .error .mustCheckInFirst)
  ∧ (∀ (now : Int) (office : Office) (lat lng : ℝ) (accuracyM : Option ℝ)
      (a : AttRec) (newId : Nat) (t t' : Int),
      a.checkInTime = some t → a.checkOutTime = some t' →
      markCreate now office .checkout lat lng accuracyM (some a) newId =
        .ok (.alreadyCheckedOut, a.id, a))
  ∧ (∀ (now : Int) (office : Office) (lat lng : ℝ) (accuracyM : Option ℝ)
      (a : AttRec) (newId : Nat) (t : Int),
      a.checkInTime = some t → a.checkOutTime = none →
      markCreate now office .checkout lat lng accuracyM (some a) newId =
        .ok (.checkedOut, a.id,
          { a with checkOutTime := some now, checkOutLat := some lat
                   checkOutLng := some lng
                   checkOutAccuracyM := accuracyM })) := by
  refine ⟨?_, ?_, ?_, ?_⟩
  · intro now office lat lng accuracyM newId
    simp [markCreate]
  · intro now office lat lng accuracyM a newId h
    simp [markCreate, h]
  · intro now office lat lng accuracyM a newId t t' hin hout
    simp [markCreate, hin, hout]
  · intro now office lat lng accuracyM a newId t hin hout
    simp [markCreate, hin, hout]

/-- C5 witness: the three checkout outcomes on concrete rows. -/
theorem C5_checkout_rules_witness :
    markCreate 9000 demoOffice .checkout 28.6 77.2 none none 99 =
      .error .mustCheckInFirst ∧
    markCreate 9000 demoOffice .checkout 28.6 77.2 none
        (some demoAttNoCheckIn) 99 = .error .mustCheckInFirst ∧
    markCreate 9000 demoOffice .checkout 28.6 77.2 none
        (some demoAttCheckedOut) 99 =
      .ok (.alreadyCheckedOut, demoAttCheckedOut.id, demoAttCheckedOut) ∧
    markCreate 9000 demoOffice .checkout 28.6004 77.2001 (some 8)
        (some demoAttCheckedIn) 99 =
      .ok (.checkedOut, demoAttCheckedIn.id,
        { demoAttCheckedIn with
          checkOutTime := some 9000, checkOutLat := some 28.6004
          checkOutLng := some 77.2001, checkOutAccuracyM := some 8 }) :=
  ⟨C5_checkout_rules.1 9000 demoOffice 28.6 77.2 none 99,
    C5_checkout_rules.2.1 9000 demoOffice 28.6 77.2 none demoAttNoCheckIn
      99 rfl,
    C5_checkout_rules.2.2.1 9000 demoOffice 28.6 77.2 none
      demoAttCheckedOut 99 5000 6000 rfl rfl,
    C5_checkout_rules.2.2.2 9000 demoOffice 28.6004 77.2001 (some 8)
      demoAttCheckedIn 99 5000 rfl rfl⟩

/-- Any user produced by the register user phase has both flags cleared. -/
theorem registerUserPhase_flags (s : AuthState) (p f : String) (u : UserRec)
    (h : registerUserPhase s p f = .ok u) :
    u.isVerified = false ∧ u.isActive = false := by
  unfold registerUserPhase at h
  cases hs : s.user with
  | none =>
    rw [hs] at h
    dsimp only at h
    cases h
    exact ⟨rfl, rfl⟩
  | some u0 =>
    rw [hs] at h
    dsimp only at h
    by_cases hv : u0.isVerified
    · rw [if_pos hv] at h
      exact absurd h (by simp)
    · rw [if_neg hv] at h
      cases h
      exact ⟨rfl, rfl⟩

/-- A successful V3 register leaves an unverified user in the state. -/
theorem registerCreateV3_user (cfg : OtpConfig) (now : Int) (s : AuthState)
    (p f c sa : String) (id : Nat) (r : IssueSuccess)
    (h : registerCreateV3 cfg now s p f c sa id = .ok r) :
    ∃ u, r.state.user = some u ∧ u.isVerified = false := by
  unfold registerCreateV3 at h
  cases hup : registerUserPhase s p f with
  | error e =>
    rw [hup] at h
    exact absurd h (by simp)
  | ok u =>
    rw [hup] at h
    dsimp only at h
    cases hth : registerThrottleV3 cfg now s.otps with
    | error e =>
      rw [hth] at h
      exact absurd h (by simp)
    | ok v =>
      rw [hth] at h
      dsimp only at h
      cases h
      exact ⟨u, rfl, (registerUserPhase_flags s p f u hup).1⟩

/-- A successful V3 resend keeps the (unverified) user unchanged. -/
theorem resendValidateV3_user (cfg : OtpConfig) (now : Int) (s : AuthState)
    (c sa : String) (id : Nat) (r : IssueSuccess)
    (h : resendValidateV3 cfg now s c sa id = .ok r) :
    ∃ u, s.user = some u ∧ r.state.user = some u ∧ u.isVerified = false := by
  unfold resendValidateV3 at h
  cases hs : s.user with
  | none =>
    rw [hs] at h
    exact absurd h (by simp)
  | some u =>
    rw [hs] at h
    dsimp only at h
    by_cases hv : u.isVerified
    · rw [if_pos hv] at h
      exact absurd h (by simp)
    · rw [if_neg hv] at h
      refine ⟨u, rfl, ?_, by simpa using hv⟩
      cases hlo : latestOtp s.otps with
      | some last =>
        rw [hlo] at h
        dsimp only at h
        by_cases h1 : now - safeLastSentAt last < cfg.cooldownSeconds
        · rw [if_pos h1] at h
          exact absurd h (by simp)
        · rw [if_neg h1] at h
          by_cases h2 : hourlyCount now s.otps ≥ cfg.maxPerHour
          · rw [if_pos h2] at h
            exact absurd h (by simp)
          · rw [if_neg h2] at h
            cases h
            rfl
      | none =>
        rw [hlo] at h
        dsimp only at h
        by_cases h2 : hourlyCount now s.otps ≥ cfg.maxPerHour
        · rw [if_pos h2] at h
          exact absurd h (by simp)
        · rw [if_neg h2] at h
          cases h
          rfl

/-- C7: an unverified account can never log in (the token serializer rejects
it before issuing a token), and among the API operations only a successful
OTP verification can turn the (verified, active) flag pair fully on: any
operation that takes the account from not-fully-flagged to fully-flagged is
a `verifyOtp` whose validation succeeded. -/
theorem C7_unverified_cannot_login :
    (∀ (u : UserRec) (credentialsOk : Bool), u.isVerified = false →
      loginValidate u credentialsOk ≠ .ok ())
  ∧ (∀ (cfg : OtpConfig) (now : Int) (op : SysOp) (s : AuthState),
      ¬ bothFlagsTrue s → bothFlagsTrue (sysStep cfg now op s) →
      ∃ code s', op = .verifyOtp code ∧
        verifyOtpValidate now s code = .ok s') := by
  constructor
  · intro u credentialsOk hv h
    unfold loginValidate at h
    cases credentialsOk with
    | false => simp at h
    | true => simp [hv] at h
  · intro cfg now op s hns hs'
    cases op with
    | register p f c sa id =>
      unfold sysStep at hs'
      dsimp only at hs'
      cases hr : registerCreateV3 cfg now s p f c sa id with
      | error e =>
        rw [hr] at hs'
        exact absurd hs' hns
      | ok r =>
        rw [hr] at hs'
        dsimp only at hs'
        obtain ⟨u, hu, hvf⟩ := registerCreateV3_user cfg now s p f c sa id r hr
        obtain ⟨u', hu', hv', _⟩ := hs'
        rw [hu] at hu'
        cases hu'
        rw [hvf] at hv'
        exact absurd hv' (by simp)
    | resendOtp c sa id =>
      unfold sysStep at hs'
      dsimp only at hs'
      cases hr : resendValidateV3 cfg now s c sa id with
      | error e =>
        rw [hr] at hs'
        exact absurd hs' hns
      | ok r =>
        rw [hr] at hs'
        dsimp only at hs'
        obtain ⟨u, _, hu, hvf⟩ := resendValidateV3_user cfg now s c sa id r hr
        obtain ⟨u', hu', hv', _⟩ := hs'
        rw [hu] at hu'
        cases hu'
        rw [hvf] at hv'
        exact absurd hv' (by simp)
    | verifyOtp code =>
      unfold sysStep at hs'
      dsimp only at hs'
      cases hr : verifyOtpValidate now s code with
      | error e =>
        rw [hr] at hs'
        exact absurd hs' hns
      | ok s' =>
        exact ⟨code, s', rfl, hr⟩
    | login credentialsOk =>
      unfold sysStep at hs'
      dsimp only at hs'
      exact absurd hs' hns

/-- C7 witness: the concrete unverified account cannot log in even with
correct credentials, and the flag flip on `exState0` is pinned to the
successful verification. -/
theorem C7_unverified_cannot_login_witness :
    loginValidate exUserUnverified true ≠ .ok () ∧
    (∃ code s', SysOp.verifyOtp "123456" = SysOp.verifyOtp code ∧
      verifyOtpValidate 500 exState0 code = .ok s') := by
  constructor
  · exact C7_unverified_cannot_login.1 exUserUnverified true rfl
  · refine C7_unverified_cannot_login.2 defaultOtpConfig 500
      (.verifyOtp "123456") exState0 ?_ ?_
    · rintro ⟨u, hu, hv, -⟩
      have : exUserUnverified = u := by
        simpa [exState0] using hu
      rw [← this] at hv
      exact absurd hv (by decide)
    · exact ⟨exUserVerified, rfl, rfl, rfl⟩

/-- C2 counterexample: in the legacy `serializers.py` register flow the
plaintext-code e-mail is dispatched inside the transaction: on the concrete
state `exState0` with a failing commit, the trace contains the e-mail and
the rollback and no commit, so a rolled-back issuance still sent the code. -/
theorem C2_counterexample :
    (registerTraceV1 defaultOtpConfig 4000 exState0 "pw12345678" ""
        "654321" "s9" 2 false).1 = [.emailSend "654321", .txRollback] ∧
    TxEvent.emailSend "654321" ∈
      (registerTraceV1 defaultOtpConfig 4000 exState0 "pw12345678" ""
        "654321" "s9" 2 false).1 ∧
    TxEvent.txCommit ∉
      (registerTraceV1 defaultOtpConfig 4000 exState0 "pw12345678" ""
        "654321" "s9" 2 false).1 := by
  refine ⟨rfl, ?_, ?_⟩
  · rw [show (registerTraceV1 defaultOtpConfig 4000 exState0 "pw12345678"
        "" "654321" "s9" 2 false).1 =
        [.emailSend "654321", .txRollback] from rfl]
    simp
  · rw [show (registerTraceV1 defaultOtpConfig 4000 exState0 "pw12345678"
        "" "654321" "s9" 2 false).1 =
        [.emailSend "654321", .txRollback] from rfl]
    simp

/-- C2 (amended): in the V3 serializers the plaintext-code e-mail of a
register or resend issuance is dispatched only after the transaction
commits — a failed commit (rollback) produces no e-mail at all, and
whenever the e-mail occurs in the trace, the trace is exactly the commit
followed by the e-mail.  The legacy `serializers.py` flows instead call
`send_mail` inside the atomic block (see the counterexample). -/
theorem C2_email_only_after_commit :
    (∀ (cfg : OtpConfig) (now : Int) (s : AuthState) (p f c sa : String)
      (id : Nat) (code : String),
      TxEvent.emailSend code ∉
        (registerTraceV3 cfg now s p f c sa id false).1)
  ∧ (∀ (cfg : OtpConfig) (now : Int) (s : AuthState) (p f c sa : String)
      (id : Nat) (commitOk : Bool) (code : String),
      TxEvent.emailSend code ∈
        (registerTraceV3 cfg now s p f c sa id commitOk).1 →
      (registerTraceV3 cfg now s p f c sa id commitOk).1 =
        [.txCommit, .emailSend code])
  ∧ (∀ (cfg : OtpConfig) (now : Int) (s : AuthState) (c sa : String)
      (id : Nat) (code : String),
      TxEvent.emailSend code ∉ (resendTraceV3 cfg now s c sa id false).1)
  ∧ (∀ (cfg : OtpConfig) (now : Int) (s : AuthState) (c sa : String)
      (id : Nat) (commitOk : Bool) (code : String),
      TxEvent.emailSend code ∈
        (resendTraceV3 cfg now s c sa id commitOk).1 →
      (resendTraceV3 cfg now s c sa id commitOk).1 =
        [.txCommit, .emailSend code]) := by
  refine ⟨?_, ?_, ?_, ?_⟩
  · intro cfg now s p f c sa id code h
    unfold registerTraceV3 at h
    cases hr : registerCreateV3 cfg now s p f c sa id with
    | error e => rw [hr] at h; simp at h
    | ok r => rw [hr] at h; simp at h
  · intro cfg now s p f c sa id commitOk code h
    unfold registerTraceV3 at h ⊢
    cases hr : registerCreateV3 cfg now s p f c sa id with
    | error e => rw [hr] at h; simp at h
    | ok r =>
      rw [hr] at h
      cases commitOk with
      | false => simp at h
      | true =>
        dsimp only at h ⊢
        have hc : code = r.otpCode := by
          rcases List.mem_cons.mp h with h1 | h1
          · exact absurd h1 (by simp)
          · rcases List.mem_cons.mp h1 with h2 | h2
            · injection h2
            · exact absurd h2 (by simp)
        rw [hc]
        simp
  · intro cfg now s c sa id code h
    unfold resendTraceV3 at h
    cases hr : resendValidateV3 cfg now s c sa id with
    | error e => rw [hr] at h; simp at h
    | ok r => rw [hr] at h; simp at h
  · intro cfg now s c sa id commitOk code h
    unfold resendTraceV3 at h ⊢
    cases hr : resendValidateV3 cfg now s c sa id with
    | error e => rw [hr] at h; simp at h
    | ok r =>
      rw [hr] at h
      cases commitOk with
      | false => simp at h
      | true =>
        dsimp only at h ⊢
        have hc : code = r.otpCode := by
          rcases List.mem_cons.mp h with h1 | h1
          · exact absurd h1 (by simp)
          · rcases List.mem_cons.mp h1 with h2 | h2
            · injection h2
            · exact absurd h2 (by simp)
        rw [hc]
        simp

/-- C2 amended witness: a committing V3 register on `exState0` whose trace
contains the e-mail is exactly commit-then-e-mail. -/
theorem C2_email_only_after_commit_witness :
    (registerTraceV3 defaultOtpConfig 4000 exState0 "pw12345678" ""
        "654321" "s9" 2 true).1 = [.txCommit, .emailSend "654321"] :=
  C2_email_only_after_commit.2.1 defaultOtpConfig 4000 exState0
    "pw12345678" "" "654321" "s9" 2 true "654321" (by decide)

/-- C3 counterexample: in the legacy `serializers.py` register flow, a
request 30 seconds after the last OTP (cooldown 60 s) is rejected with a
message reporting the full 60-second cooldown constant, not the remaining
30-second wait — contradicting "that error reports the remaining wait
time". -/
theorem C3_counterexample :
    registerCreateV1 defaultOtpConfig 130 exState0 "pw12345678" ""
        "222222" "s2" 2 = .error (.cooldownWait 60) ∧
    defaultOtpConfig.cooldownSeconds - (130 - safeLastSentAt exOtp) = 30 ∧
    (60 : Int) ≠ 30 :=
  ⟨rfl, rfl, by decide⟩

/-- C3 (amended): once the user phase of the V3 register flow passes,
issuance is rejected whenever the most recent OTP row is younger than the
cooldown, with an error reporting exactly the remaining wait
`cooldown - elapsed`; independently of the cooldown having elapsed, the
issuance is rejected once the trailing-hour count has reached
`max_per_hour` — so a 6th issuance within an hour is refused.  The legacy
`serializers.py` flow enforces the same two limits but reports the full
cooldown constant instead of the remaining wait (see the
counterexample). -/
theorem C3_cooldown_and_hourly_cap :
    (∀ (cfg : OtpConfig) (now : Int) (s : AuthState) (p f c sa : String)
      (id : Nat) (u : UserRec) (last : OtpRec),
      registerUserPhase s p f = .ok u →
      latestOtp s.otps = some last →
      now - safeLastSentAt last < cfg.cooldownSeconds →
      registerCreateV3 cfg now s p f c sa id =
        .error (.cooldownWait
          (cfg.cooldownSeconds - (now - safeLastSentAt last))))
  ∧ (∀ (cfg : OtpConfig) (now : Int) (s : AuthState) (p f c sa : String)
      (id : Nat) (u : UserRec) (last : OtpRec),
      registerUserPhase s p f = .ok u →
      latestOtp s.otps = some last →
      ¬ (now - safeLastSentAt last < cfg.cooldownSeconds) →
      cfg.maxPerHour ≤ hourlyCount now s.otps →
      registerCreateV3 cfg now s p f c sa id = .error .hourlyLimitReached)
  ∧ registerCreateV3 defaultOtpConfig 3000 exState5 "pw12345678" "Asha"
      "777777" "s7" 6 = .error .hourlyLimitReached := by
  refine ⟨?_, ?_, rfl⟩
  · intro cfg now s p f c sa id u last hup hlast hcd
    unfold registerCreateV3
    rw [hup]
    dsimp only
    unfold registerThrottleV3
    rw [hlast]
    dsimp only
    rw [if_pos hcd]
    have hmax : max (cfg.cooldownSeconds - (now - safeLastSentAt last)) 1 =
        cfg.cooldownSeconds - (now - safeLastSentAt last) :=
      max_eq_left (by omega)
    rw [hmax]
  · intro cfg now s p f c sa id u last hup hlast hcd hcap
    unfold registerCreateV3
    rw [hup]
    dsimp only
    unfold registerThrottleV3
    rw [hlast]
    dsimp only
    rw [if_neg hcd, if_pos hcap]

/-- C3 amended witness: 30 seconds into the 60-second cooldown the V3
register flow reports the remaining 30-second wait; and with five OTPs in
the trailing hour and the cooldown long elapsed the 6th issuance is
refused. -/
theorem C3_cooldown_and_hourly_cap_witness :
    registerCreateV3 defaultOtpConfig 130 exState0 "pw12345678" ""
        "222222" "s2" 2 =
      .error (.cooldownWait
        (defaultOtpConfig.cooldownSeconds - (130 - safeLastSentAt exOtp))) ∧
    registerCreateV3 defaultOtpConfig 3000 exState5 "pw12345678" "Asha"
        "777777" "s7" 6 = .error .hourlyLimitReached :=
  ⟨C3_cooldown_and_hourly_cap.1 defaultOtpConfig 130 exState0 "pw12345678"
      "" "222222" "s2" 2 exUserUnverified exOtp rfl rfl (by decide),
    C3_cooldown_and_hourly_cap.2.1 defaultOtpConfig 3000 exState5
      "pw12345678" "Asha" "777777" "s7" 6
      { fullName := "Asha", password := "pw12345678"
        isVerified := false, isActive := false }
      exOtpLast rfl rfl (by decide) (by decide)⟩

/-- Report fold invariant: when the attendance map is everywhere empty, the
present and late counters never move and the absent counter advances once
per day. -/
theorem reportFold_all_none (att : Int → Option ReportAtt)
    (h : ∀ d, att d = none) :
    ∀ (ds : List Int) (acc : List ReportRow × Nat × Nat × Nat),
      (ds.foldl (reportStep att) acc).2.1 = acc.2.1 ∧
      (ds.foldl (reportStep att) acc).2.2.1 = acc.2.2.1 + ds.length ∧
      (ds.foldl (reportStep att) acc).2.2.2 = acc.2.2.2 := by
  intro ds
  induction ds with
  | nil =>
    intro acc
    simp
  | cons d ds ih =>
    intro acc
    rw [List.foldl_cons]
    have hstep : reportStep att acc d =
        (acc.1 ++ [⟨d, false, 0⟩], acc.2.1, acc.2.2.1 + 1, acc.2.2.2) := by
      unfold reportStep
      rw [h d]
    rw [hstep]
    obtain ⟨h1, h2, h3⟩ :=
      ih (acc.1 ++ [⟨d, false, 0⟩], acc.2.1, acc.2.2.1 + 1, acc.2.2.2)
    refine ⟨h1, ?_, h3⟩
    rw [h2]
    show acc.2.2.1 + 1 + ds.length = acc.2.2.1 + (ds.length + 1)
    omega

/-- Zero attendance records over a day range yields a summary with zero
present days and everything absent. -/
theorem buildUserRows_summary_all_none (days : List Int)
    (att : Int → Option ReportAtt) (h : ∀ d, att d = none) :
    (buildUserRows days att).2 =
      { totalDays := days.length, presentDays := 0
        absentDays := days.length, lateDays := 0 } := by
  unfold buildUserRows
  obtain ⟨h1, h2, h3⟩ := reportFold_all_none att h days ([], 0, 0, 0)
  dsimp only at h1 h2 h3 ⊢
  rw [h1, h2, h3]
  simp

/-- Every produced detail row is either an ABSENT row with zero lateness for
a day without a record, or a PRESENT row whose lateness is `_minutes_late`
of the day's check-in. -/
theorem buildUserRows_rows_spec (days : List Int)
    (att : Int → Option ReportAtt) :
    ∀ r ∈ (buildUserRows days att).1,
      (att r.date = none ∧ r.present = false ∧ r.lateMinutes = 0) ∨
      (∃ a, att r.date = some a ∧ r.present = true ∧
        r.lateMinutes = minutesLate a.checkInLocal) := by
  have aux : ∀ (ds : List Int) (acc : List ReportRow × Nat × Nat × Nat),
      (∀ r ∈ acc.1,
        (att r.date = none ∧ r.present = false ∧ r.lateMinutes = 0) ∨
        (∃ a, att r.date = some a ∧ r.present = true ∧
          r.lateMinutes = minutesLate a.checkInLocal)) →
      ∀ r ∈ (ds.foldl (reportStep att) acc).1,
        (att r.date = none ∧ r.present = false ∧ r.lateMinutes = 0) ∨
        (∃ a, att r.date = some a ∧ r.present = true ∧
          r.lateMinutes = minutesLate a.checkInLocal) := by
    intro ds
    induction ds with
    | nil =>
      intro acc hacc
      simpa using hacc
    | cons d ds ih =>
      intro acc hacc
      rw [List.foldl_cons]
      refine ih _ ?_
      intro r hr
      cases had : att d with
      | none =>
        rw [show reportStep att acc d =
            (acc.1 ++ [⟨d, false, 0⟩], acc.2.1, acc.2.2.1 + 1, acc.2.2.2)
          from by unfold reportStep; rw [had]] at hr
        rcases List.mem_append.mp hr with hold | hnew
        · exact hacc r hold
        · have : r = ⟨d, false, 0⟩ := by simpa using hnew
          rw [this]
          exact Or.inl ⟨had, rfl, rfl⟩
      | some a =>
        rw [show reportStep att acc d =
            (acc.1 ++ [⟨d, true, minutesLate a.checkInLocal⟩],
              acc.2.1 + 1, acc.2.2.1,
              acc.2.2.2 +
                (if 0 < minutesLate a.checkInLocal then 1 else 0))
          from by unfold reportStep; rw [had]] at hr
        rcases List.mem_append.mp hr with hold | hnew
        · exact hacc r hold
        · have : r = ⟨d, true, minutesLate a.checkInLocal⟩ := by
            simpa using hnew
          rw [this]
          exact Or.inr ⟨a, had, rfl, rfl⟩
  intro r hr
  exact aux days ([], 0, 0, 0) (by simp) r hr

/-- The inclusive seven-day range has exactly seven days. -/
theorem dateRangeList_seven (d1 : Int) :
    (dateRangeList d1 (d1 + 6)).length = 7 := by
  unfold dateRangeList
  rw [if_neg (by omega), List.length_map, List.length_range]
  omega

/-- C9: a user with zero attendance records across a 7-day range is reported
with present_days = 0 and absent_days = 7; every detail row is either
ABSENT with zero lateness or PRESENT with lateness `_minutes_late` of its
check-in; and `_minutes_late` is the whole-minute excess of the check-in
local time over the fixed 10:00 office start, clipped to zero at or before
10:00 or without a check-in. -/
theorem C9_report_aggregate_and_lateness :
    (∀ (d1 : Int) (att : Int → Option ReportAtt), (∀ d, att d = none) →
      (buildUserRows (dateRangeList d1 (d1 + 6)) att).2 =
        { totalDays := 7, presentDays := 0, absentDays := 7
          lateDays := 0 })
  ∧ (∀ (days : List Int) (att : Int → Option ReportAtt),
      ∀ r ∈ (buildUserRows days att).1,
        (att r.date = none ∧ r.present = false ∧ r.lateMinutes = 0) ∨
        (∃ a, att r.date = some a ∧ r.present = true ∧
          r.lateMinutes = minutesLate a.checkInLocal))
  ∧ minutesLate none = 0
  ∧ (∀ t, t ≤ officeStartSeconds → minutesLate (some t) = 0)
  ∧ (∀ t, officeStartSeconds < t →
      minutesLate (some t) = (t - officeStartSeconds) / 60) := by
  refine ⟨?_, buildUserRows_rows_spec, rfl, ?_, ?_⟩
  · intro d1 att h
    rw [buildUserRows_summary_all_none (dateRangeList d1 (d1 + 6)) att h,
      dateRangeList_seven d1]
  · intro t h
    show (if t ≤ officeStartSeconds then 0
      else (t - officeStartSeconds) / 60) = 0
    rw [if_pos h]
  · intro t h
    show (if t ≤ officeStartSeconds then 0
      else (t - officeStartSeconds) / 60) = (t - officeStartSeconds) / 60
    rw [if_neg (by omega)]

/-- C9 witness: the concrete empty 7-day report and a 10:10 check-in scored
ten minutes late. -/
theorem C9_report_aggregate_and_lateness_witness :
    (buildUserRows (dateRangeList 0 (0 + 6)) (fun _ => none)).2 =
      { totalDays := 7, presentDays := 0, absentDays := 7
        lateDays := 0 } ∧
    minutesLate (some 36600) = (36600 - officeStartSeconds) / 60 :=
  ⟨C9_report_aggregate_and_lateness.1 0 (fun _ => none) (fun _ => rfl),
    C9_report_aggregate_and_lateness.2.2.2.2 36600 (by decide)⟩

/-- The haversine formula is symmetric in its two coordinate pairs. -/
theorem haversine_symm (lat1 lon1 lat2 lon2 : ℝ) :
    haversine_m lat1 lon1 lat2 lon2 = haversine_m lat2 lon2 lat1 lon1 := by
  have key : ∀ x y : ℝ,
      Real.sin (radians (x - y) / 2) ^ 2 =
        Real.sin (radians (y - x) / 2) ^ 2 := by
    intro x y
    have hxy : radians (x - y) = -(radians (y - x)) := by
      unfold radians
      ring
    rw [hxy, neg_div, Real.sin_neg]
    ring
  simp only [haversine_m]
  rw [key lat2 lat1, key lon2 lon1,
    mul_comm (Real.cos (radians lat1)) (Real.cos (radians lat2))]

/-- The haversine distance from a point to itself is zero. -/
theorem haversine_self (lat lon : ℝ) : haversine_m lat lon lat lon = 0 := by
  have h2 : atan2 0 1 = 0 := by
    unfold atan2
    rw [if_pos one_pos, zero_div, Real.arctan_zero]
  simp only [haversine_m, sub_self]
  have h0 : radians 0 = 0 := by
    unfold radians
    ring
  rw [h0, zero_div, Real.sin_zero]
  norm_num [h2]

/-- On a common longitude the haversine distance is exactly Earth radius
times the latitude difference in radians (for differences below 180°). -/
theorem haversine_same_lon (lat1 lat2 lon : ℝ) (h : |lat2 - lat1| < 180) :
    haversine_m lat1 lon lat2 lon =
      6371000 * (|lat2 - lat1| * (Real.pi / 180)) := by
  have hpi := Real.pi_pos
  set θ := |lat2 - lat1| * (Real.pi / 180) / 2 with hθdef
  have hθ0 : 0 ≤ θ := by positivity
  have hθlt : θ < Real.pi / 2 := by
    rw [hθdef]
    have hstep : |lat2 - lat1| * (Real.pi / 180) < 180 * (Real.pi / 180) :=
      mul_lt_mul_of_pos_right h (by positivity)
    have h180 : 180 * (Real.pi / 180) = Real.pi := by ring
    linarith
  have habs : |radians (lat2 - lat1)| = |lat2 - lat1| * (Real.pi / 180) := by
    unfold radians
    rw [abs_mul, abs_of_pos (show (0:ℝ) < Real.pi / 180 by positivity)]
  have hsinθ : Real.sin (radians (lat2 - lat1) / 2) ^ 2 =
      Real.sin θ ^ 2 := by
    have step : Real.sin (radians (lat2 - lat1) / 2) ^ 2 =
        Real.sin (|radians (lat2 - lat1)| / 2) ^ 2 := by
      rcases abs_cases (radians (lat2 - lat1)) with ⟨he, _⟩ | ⟨he, _⟩
      · rw [he]
      · rw [he, neg_div, Real.sin_neg]
        ring
    rw [step, habs, hθdef]
  have hsin_nonneg : 0 ≤ Real.sin θ :=
    Real.sin_nonneg_of_nonneg_of_le_pi hθ0 (by linarith)
  have hcos_pos : 0 < Real.cos θ :=
    Real.cos_pos_of_mem_Ioo ⟨by linarith, hθlt⟩
  have hlon : radians (lon - lon) = 0 := by
    unfold radians
    rw [sub_self, zero_mul]
  have ha : Real.sin (radians (lat2 - lat1) / 2) ^ 2 +
      Real.cos (radians lat1) * Real.cos (radians lat2) *
        Real.sin (radians (lon - lon) / 2) ^ 2 = Real.sin θ ^ 2 := by
    rw [hlon, zero_div, Real.sin_zero, hsinθ]
    ring
  simp only [haversine_m]
  rw [ha]
  rw [show (1 : ℝ) - Real.sin θ ^ 2 = Real.cos θ ^ 2 from by
    have := Real.sin_sq_add_cos_sq θ
    linarith]
  rw [Real.sqrt_sq hsin_nonneg, Real.sqrt_sq hcos_pos.le]
  unfold atan2
  rw [if_pos hcos_pos, ← Real.tan_eq_sin_div_cos,
    Real.arctan_tan (by linarith) hθlt, hθdef]
  ring

/-- C8: the geo distance is a pure real-valued function built from the
haversine formula with Earth radius 6 371 000 m; it is symmetric in its two
coordinate pairs for all real inputs and zero on identical points. -/
theorem C8_haversine_symmetric_and_zero :
    (∀ lat1 lon1 lat2 lon2 : ℝ,
      haversine_m lat1 lon1 lat2 lon2 = haversine_m lat2 lon2 lat1 lon1)
  ∧ (∀ lat lon : ℝ, haversine_m lat lon lat lon = 0) :=
  ⟨haversine_symm, haversine_self⟩

/-- The user's latitude offset in the passing scenario is 0.0005°. -/
theorem demoAbs1 : |(28.6 : ℝ) - 28.6005| = 0.0005 := by
  rw [abs_of_neg (by norm_num)]
  norm_num

/-- Exact distance of the passing scenario. -/
theorem demoDist1_eq : haversine_m 28.6005 77.2 28.6 77.2 =
    6371000 * (0.0005 * (Real.pi / 180)) := by
  rw [haversine_same_lon 28.6005 28.6 77.2 (by rw [demoAbs1]; norm_num),
    demoAbs1]

/-- The passing scenario's point is within the 100 m radius (≈ 55.6 m). -/
theorem demoDist1_le : haversine_m 28.6005 77.2 28.6 77.2 ≤ 100 := by
  rw [demoDist1_eq]
  have := Real.pi_lt_d2
  nlinarith

/-- The user's latitude offset in the failing scenario is 0.005°. -/
theorem demoAbs2 : |(28.6 : ℝ) - 28.605| = 0.005 := by
  rw [abs_of_neg (by norm_num)]
  norm_num

/-- Exact distance of the failing scenario. -/
theorem demoDist2_eq : haversine_m 28.605 77.2 28.6 77.2 =
    6371000 * (0.005 * (Real.pi / 180)) := by
  rw [haversine_same_lon 28.605 28.6 77.2 (by rw [demoAbs2]; norm_num),
    demoAbs2]

/-- The failing scenario's point is outside the 100 m radius. -/
theorem demoDist2_gt : (100 : ℝ) < haversine_m 28.605 77.2 28.6 77.2 := by
  rw [demoDist2_eq]
  have := Real.pi_gt_three
  nlinarith

/-- The failing scenario's truncated reported distance is 555 m. -/
theorem demoDist2_floor : ⌊haversine_m 28.605 77.2 28.6 77.2⌋ = 555 := by
  rw [demoDist2_eq, Int.floor_eq_iff]
  constructor
  · have := Real.pi_gt_d6
    push_cast
    nlinarith
  · have := Real.pi_lt_d6
    push_cast
    nlinarith

/-- C6: for a verified active caller whose token resolves to an active QR,
mark validation fails exactly when the haversine distance from the
submitted point to the office exceeds the office radius — reporting the
truncated measured distance and the allowed radius — and passes (returning
the office) at or under the radius.  In the specification's scenario the
office sits at (28.6, 77.2) with radius 100 m: a scan from
(28.6005, 77.2) (≈ 55.6 m) passes and a scan from (28.605, 77.2)
(≈ 556 m) fails reporting distance 555 m against the allowed 100 m. -/
theorem C6_geofence_exactness :
    (∀ (u : UserRec) (db : List QRRec) (tok : String) (lat lng : ℝ)
      (q : QRRec),
      u.isVerified = true → u.isActive = true →
      findActiveQR db tok = some q →
      ((q.office.allowedRadiusM : ℝ) <
          haversine_m lat lng q.office.latitude q.office.longitude →
        markValidate u db tok lat lng =
          .error (.outOfRange
            ⌊haversine_m lat lng q.office.latitude q.office.longitude⌋
            q.office.allowedRadiusM)) ∧
      (haversine_m lat lng q.office.latitude q.office.longitude ≤
          (q.office.allowedRadiusM : ℝ) →
        markValidate u db tok lat lng = .ok q.office))
  ∧ markValidate demoUser demoDB "T1" 28.6005 77.2 = .ok demoOffice
  ∧ markValidate demoUser demoDB "T1" 28.605 77.2 =
      .error (.outOfRange 555 100) := by
  have general : ∀ (u : UserRec) (db : List QRRec) (tok : String)
      (lat lng : ℝ) (q : QRRec),
      u.isVerified = true → u.isActive = true →
      findActiveQR db tok = some q →
      ((q.office.allowedRadiusM : ℝ) <
          haversine_m lat lng q.office.latitude q.office.longitude →
        markValidate u db tok lat lng =
          .error (.outOfRange
            ⌊haversine_m lat lng q.office.latitude q.office.longitude⌋
            q.office.allowedRadiusM)) ∧
      (haversine_m lat lng q.office.latitude q.office.longitude ≤
          (q.office.allowedRadiusM : ℝ) →
        markValidate u db tok lat lng = .ok q.office) := by
    intro u db tok lat lng q hv ha hq
    constructor
    · intro hd
      unfold markValidate
      rw [hv, ha, if_neg (by simp), if_neg (by simp), hq]
      dsimp only
      rw [if_pos hd]
    · intro hd
      unfold markValidate
      rw [hv, ha, if_neg (by simp), if_neg (by simp), hq]
      dsimp only
      rw [if_neg (not_lt.mpr hd)]
  refine ⟨general, ?_, ?_⟩
  · exact (general demoUser demoDB "T1" 28.6005 77.2 demoQR rfl rfl rfl).2
      (by
        show haversine_m 28.6005 77.2 28.6 77.2 ≤ ((100 : ℕ) : ℝ)
        push_cast
        exact demoDist1_le)
  · have hmain := (general demoUser demoDB "T1" 28.605 77.2 demoQR rfl rfl
      rfl).1
      (by
        show ((100 : ℕ) : ℝ) < haversine_m 28.605 77.2 28.6 77.2
        push_cast
        exact demoDist2_gt)
    have hfl : ⌊haversine_m 28.605 77.2 demoQR.office.latitude
        demoQR.office.longitude⌋ = 555 := demoDist2_floor
    rw [hfl] at hmain
    exact hmain

/-- C6 witness: the general geofence characterisation applied at the
concrete failing scenario. -/
theorem C6_geofence_exactness_witness :
    markValidate demoUser demoDB "T1" 28.605 77.2 =
      .error (.outOfRange
        ⌊haversine_m 28.605 77.2 demoOffice.latitude demoOffice.longitude⌋
        demoOffice.allowedRadiusM) :=
  (C6_geofence_exactness.1 demoUser demoDB "T1" 28.605 77.2 demoQR rfl rfl
      rfl).1
    (by
      show ((100 : ℕ) : ℝ) < haversine_m 28.605 77.2 28.6 77.2
      push_cast
      exact demoDist2_gt)

end ClickConnect
